import Mathlib

/-!
# Verification of the BLACK-ROCK-MONOETH payment backend (`src/app.py`)

Shallow embedding of the message codec (`Iso8583Message.pack` / `unpack`),
the payout stub (`initiate_payout`), the transaction pipeline
(`process_payment_logic`) and the persistence sink
(`log_transaction_to_firestore`), together with theorems settling the
spec's claims about them.

Python strings in the codec are modelled as `List Char`; `str.split(sep)`
with a one-character separator and `sep.join(...)` are modelled by
`pySplit` / `pyJoin` below, which follow Python's semantics exactly
(splitting keeps empty pieces, the result is never the empty list).
Values that Python reads out of a request dict are modelled as
`Option String` (`none` = key absent); Python truthiness of such a value
is `truthy` below.
-/

/-- Python `s.split(c)` for a single-character separator: split on every
occurrence, keeping empty pieces; the result is never `[]`
(`"".split(c) == [""]`). -/
def pySplit (sep : Char) : List Char → List (List Char)
  | [] => [[]]
  | c :: rest =>
    match pySplit sep rest with
    | [] => [[]]
    | h :: t => if c = sep then [] :: h :: t else (c :: h) :: t

/-- Python `c.join(pieces)` for a single-character separator. -/
def pyJoin (sep : Char) : List (List Char) → List Char
  | [] => []
  | [p] => p
  | p :: q :: ps => p ++ sep :: pyJoin sep (q :: ps)

/-- The decoded wire message: `self.mti` and the ordered field dict
`self.data_elements` of class `Iso8583Message`.  After `unpack` the
`mti` is always a string (the `except` clause sets `'ERROR'`), so it is
modelled as `List Char` rather than `Option`. -/
structure Iso8583Message where
  mti : List Char
  data_elements : List (List Char × List Char)
deriving DecidableEq, Repr

/-- Python dict assignment `d[k] = v` on an insertion-ordered dict: an
existing key keeps its position and gets the new value, a new key is
appended. -/
def dictInsert (m : List (List Char × List Char)) (k v : List Char) :
    List (List Char × List Char) :=
  if m.any (fun p => p.1 == k) then
    m.map (fun p => if p.1 == k then (k, v) else p)
  else m ++ [(k, v)]

namespace Iso8583Message

/-- The `for element in data_elements:` loop of `unpack`: each element is
split on `':'` and must give exactly a key and a value
(`key, value = element.split(':')`), which are inserted into the dict.
The `Bool` is `false` when some element raised (too few / too many parts);
the returned list is the dict state at that moment — Python keeps the
pairs already inserted when the exception is thrown. -/
def unpackPairs (acc : List (List Char × List Char)) :
    List (List Char) → List (List Char × List Char) × Bool
  | [] => (acc, true)
  | e :: rest =>
    match pySplit ':' e with
    | [k, v] => unpackPairs (dictInsert acc k v) rest
    | _ => (acc, false)

/-- The body of the `try:` block of `unpack`, on the result of
`message_str.split('|')`.  `Except` models the raised exception: the
error payload is the partially populated `data_elements` at the raise
point.  Statement order of the source is preserved:
`self.mti = parts[0].split(':')[1]`, then `data_part = parts[1]`, then
the pair loop. -/
def unpackPartsE (parts : List (List Char)) :
    Except (List (List Char × List Char)) Iso8583Message :=
  match (pySplit ':' (parts.headD [])).get? 1 with
  | none => .error []
  | some mtiVal =>
    match parts.get? 1 with
    | none => .error []
    | some dataPart =>
      match unpackPairs [] (pySplit ',' dataPart) with
      | (acc, true) => .ok ⟨mtiVal, acc⟩
      | (acc, false) => .error acc

/-- `Iso8583Message.unpack`: split the input on `'|'`, run the `try:`
body; on any exception set `self.mti = 'ERROR'` keeping whatever
`data_elements` were already populated.  Total by construction — the
source's bare `except Exception` catches everything. -/
def unpack (message_str : List Char) : Iso8583Message :=
  match unpackPartsE (pySplit '|' message_str) with
  | .ok m => m
  | .error acc => ⟨['E', 'R', 'R', 'O', 'R'], acc⟩

/-- `Iso8583Message.pack`: `f"MTI:{mti}|" + ",".join(f"{k}:{v}" ...)`. -/
def pack (mti : List Char) (data_elements : List (List Char × List Char)) :
    List Char :=
  ['M', 'T', 'I', ':'] ++ mti ++ '|' ::
    pyJoin ',' (data_elements.map (fun p => p.1 ++ ':' :: p.2))

end Iso8583Message

/-- The incoming request dict `data` as read by `process_payment_logic`:
`data.get(key)` for the five keys it uses.  `none` models an absent key.
Values are kept as strings (`amount` arrives as a JSON number; nothing in
the pipeline looks inside it, only at its truthiness). -/
structure RequestData where
  amount : Option String
  currency : Option String
  cardNumber : Option String
  protocol : Option String
  userId : Option String
deriving DecidableEq, Repr

/-- The dict returned by `initiate_payout`. -/
structure PayoutResult where
  status : String
  hash : Option String
deriving DecidableEq, Repr

/-- The dict returned by `process_payment_logic` (and logged): keys
`status`, `response_code`, `message`, `blockchain_hash`. -/
structure PaymentResult where
  status : String
  response_code : String
  message : String
  blockchain_hash : Option String
deriving DecidableEq, Repr

/-- The document `log_transaction_to_firestore` adds to the per-user
`transactions` collection (the `SERVER_TIMESTAMP` field, a constant
sentinel filled in by the database, is omitted). -/
structure LedgerRecord where
  amount : Option String
  currency : Option String
  protocol : Option String
  cardNumber : Option String
  status : Option String
  response_code : Option String
  blockchain_hash : Option String
deriving DecidableEq, Repr

/-- Python truthiness of an optional string: `None` and `''` are falsy. -/
def truthy : Option String → Bool
  | none => false
  | some s => !(s == "")

/-- The validation guard of `process_payment_logic`:
`all([amount, currency, card_number, protocol])`. -/
def truthyAll (data : RequestData) : Bool :=
  truthy data.amount && truthy data.currency &&
    truthy data.cardNumber && truthy data.protocol

/-- `initiate_payout`.  Its `try:` body only formats a random 32-byte hex
string, logs and sleeps — all total operations — so it always returns
`{"status": "success", "hash": "0x..."}`; the `except` branch returning
`{"status": "failure", "hash": None}` is dead.  The ambient randomness
(`os.urandom(32).hex()`) is the `randHex` argument. -/
def initiate_payout (randHex : String) (amount : Option String)
    (payout_type wallet_address : String) : PayoutResult :=
  { status := "success", hash := some ("0x" ++ randHex) }

/-- The document built inside `log_transaction_to_firestore`: request
fields are copied verbatim from `data` (`data.get('cardNumber')` — no
masking), outcome fields from the `result` dict. -/
def firestoreRecord (data : RequestData) (result : PaymentResult) :
    LedgerRecord :=
  { amount := data.amount
    currency := data.currency
    protocol := data.protocol
    cardNumber := data.cardNumber
    status := some result.status
    response_code := some result.response_code
    blockchain_hash := result.blockchain_hash }

/-- `log_transaction_to_firestore`.  `dbAvail` models the global `db`
being non-`None`; `sink` models the Firestore `add` call, returning
whether it succeeded (its `try/except` swallows any failure, so the
function never raises).  Result: `none` when nothing was attempted
(db or user id missing), `some b` when the add ran with outcome `b`. -/
def log_transaction_to_firestore (dbAvail : Bool) (sink : LedgerRecord → Bool)
    (user_id : String) (data : RequestData) (result : PaymentResult) :
    Option Bool :=
  if !dbAvail || user_id == "" then none
  else some (sink (firestoreRecord data result))

/-- `process_payment_logic`.  `isApproved` is the value drawn by
`random.choice([True, False])`; `payout` is the dict the settlement call
`initiate_payout(...)` returns (injected so failing settlement backends
can be stated); `dbAvail`/`sink` are the ledger dependency.  Returns the
reply dict together with the ledger effect (`Option Bool` as in
`log_transaction_to_firestore`; the validation-failure branch returns
before any logging, hence `none` there). -/
def process_payment_logic (isApproved : Bool) (payout : PayoutResult)
    (dbAvail : Bool) (sink : LedgerRecord → Bool) (data : RequestData) :
    PaymentResult × Option Bool :=
  let user_id := data.userId.getD "virtual-terminal-1"
  if !truthyAll data then
    ({ status := "declined", response_code := "99",
       message := "Missing transaction data.", blockchain_hash := none }, none)
  else
    let result :=
      if isApproved then
        if payout.status == "success" then
          { status := "approved", response_code := "00",
            message := "Transaction approved and payout initiated.",
            blockchain_hash := payout.hash }
        else
          { status := "approved", response_code := "05",
            message := "Transaction approved, but payout failed.",
            blockchain_hash := none }
      else
        { status := "declined", response_code := "51",
          message := "Transaction declined by internal rules.",
          blockchain_hash := none }
    (result, log_transaction_to_firestore dbAvail sink user_id data result)

/-- Whether the `try:` body of `unpack` raises on this input — true
exactly on the structurally invalid inputs (missing `'|'` delimiter,
colon-less first segment, malformed `code:value` pair). -/
def unpackRaises (message_str : List Char) : Bool :=
  match Iso8583Message.unpackPartsE (pySplit '|' message_str) with
  | .ok _ => false
  | .error _ => true

/-- A complete request as sent by the web channel. -/
def demoData : RequestData :=
  ⟨some "10.00", some "USD", some "4111111111111111", some "VISA", none⟩

/-- A succeeding settlement result. -/
def demoPayout : PayoutResult := ⟨"success", some "0xabc"⟩

/-- An approved outcome dict. -/
def demoResult : PaymentResult :=
  ⟨"approved", "00", "Transaction approved and payout initiated.", some "0xabc"⟩

/-- Request missing only `amount`. -/
def noAmountData : RequestData :=
  ⟨none, some "USD", some "4111111111111111", some "VISA", none⟩

/-- Request missing only `currency`. -/
def noCurrencyData : RequestData :=
  ⟨some "10.00", none, some "4111111111111111", some "VISA", none⟩

/-- Request missing both `amount` and `currency`. -/
def noAmountNoCurrencyData : RequestData :=
  ⟨none, none, some "4111111111111111", some "VISA", none⟩

/-! ## Helper lemmas about the split/join primitives -/

/-- `pySplit` never returns the empty list, like Python `split`. -/
theorem pySplit_ne_nil (sep : Char) : ∀ (l : List Char), pySplit sep l ≠ []
  | [] => by simp [pySplit]
  | c :: rest => by
    rw [pySplit]
    cases hr : pySplit sep rest with
    | nil => simp
    | cons h t => dsimp only; split <;> simp

/-- Splitting a separator-free string returns it whole. -/
theorem pySplit_of_not_mem {sep : Char} {a : List Char} (h : sep ∉ a) :
    pySplit sep a = [a] := by
  induction a with
  | nil => rfl
  | cons c rest ih =>
    rw [List.mem_cons, not_or] at h
    rw [pySplit, ih h.2]
    simp [Ne.symm h.1]

/-- Splitting peels off a separator-free head segment. -/
theorem pySplit_append {sep : Char} {a : List Char} (b : List Char)
    (h : sep ∉ a) : pySplit sep (a ++ sep :: b) = a :: pySplit sep b := by
  induction a with
  | nil =>
    obtain ⟨h0, t0, ht⟩ := List.exists_cons_of_ne_nil (pySplit_ne_nil sep b)
    simp [pySplit, ht]
  | cons c rest ih =>
    rw [List.mem_cons, not_or] at h
    rw [List.cons_append, pySplit, ih h.2]
    simp [Ne.symm h.1]

/-- A character distinct from the separator and absent from every piece
is absent from the join. -/
theorem not_mem_pyJoin {c sep : Char} (hcs : c ≠ sep) :
    ∀ {ps : List (List Char)}, (∀ p ∈ ps, c ∉ p) → c ∉ pyJoin sep ps
  | [], _ => by simp [pyJoin]
  | [p], h => by simpa [pyJoin] using h p (by simp)
  | p :: q :: ps, h => by
    have ih := @not_mem_pyJoin c sep hcs (q :: ps)
      (fun x hx => h x (List.mem_cons_of_mem p hx))
    simp only [pyJoin, List.mem_append, List.mem_cons, not_or]
    exact ⟨h p (by simp), hcs, ih⟩

/-- Splitting the join of separator-free pieces recovers the pieces. -/
theorem pySplit_pyJoin {sep : Char} :
    ∀ {ps : List (List Char)}, ps ≠ [] → (∀ p ∈ ps, sep ∉ p) →
    pySplit sep (pyJoin sep ps) = ps
  | [], hne, _ => absurd rfl hne
  | [p], _, h => by
    rw [pyJoin]
    exact pySplit_of_not_mem (h p (by simp))
  | p :: q :: ps, _, h => by
    rw [pyJoin, pySplit_append _ (h p (by simp)),
      pySplit_pyJoin (by simp) (fun x hx => h x (List.mem_cons_of_mem p hx))]

/-- Assigning a fresh key appends it. -/
theorem dictInsert_of_not_mem {m : List (List Char × List Char)}
    {k : List Char} (v : List Char) (h : k ∉ m.map Prod.fst) :
    dictInsert m k v = m ++ [(k, v)] := by
  have hfalse : m.any (fun p => p.1 == k) = false := by
    rw [List.any_eq_false]
    intro p hp e
    exact h (List.mem_map.mpr ⟨p, hp, eq_of_beq e⟩)
  rw [dictInsert, hfalse]
  simp

/-- The pair loop on well-formed, colon-free, duplicate-free pairs
appends them all to the accumulator and reports success. -/
theorem unpackPairs_clean :
    ∀ (fields acc : List (List Char × List Char)),
    (∀ p ∈ fields, ':' ∉ p.1 ∧ ':' ∉ p.2) →
    (fields.map Prod.fst).Nodup →
    (∀ k ∈ fields.map Prod.fst, k ∉ acc.map Prod.fst) →
    Iso8583Message.unpackPairs acc (fields.map fun p => p.1 ++ ':' :: p.2) =
      (acc ++ fields, true)
  | [], acc, _, _, _ => by
    rw [List.map_nil, List.append_nil]
    rfl
  | (k, v) :: rest, acc, hcl, hnd, hdisj => by
    have hk := hcl (k, v) (by simp)
    have hsplit : pySplit ':' (k ++ ':' :: v) = [k, v] := by
      rw [pySplit_append _ hk.1, pySplit_of_not_mem hk.2]
    rw [List.map_cons]
    rw [Iso8583Message.unpackPairs, hsplit]
    show Iso8583Message.unpackPairs (dictInsert acc k v)
      (List.map (fun p => p.1 ++ ':' :: p.2) rest) = (acc ++ (k, v) :: rest, true)
    rw [dictInsert_of_not_mem v (hdisj k (by simp))]
    rw [List.map_cons, List.nodup_cons] at hnd
    have ih := unpackPairs_clean rest (acc ++ [(k, v)])
      (fun p hp => hcl p (List.mem_cons_of_mem _ hp)) hnd.2
      (by
        intro k' hk'
        simp only [List.map_append, List.mem_append, List.map_cons,
          List.map_nil, List.mem_singleton, not_or]
        refine ⟨hdisj k' (List.mem_cons_of_mem _ hk'), ?_⟩
        exact fun e => hnd.1 (e ▸ hk'))
    rw [ih, List.append_assoc]
    simp

/-! ## Claim theorems -/

/-- C1 (amended): round-trip of the codec for well-formed messages with a
NON-EMPTY field map — a non-empty message type and field codes/values all
free of the delimiter characters `'|'`, `','`, `':'`, with pairwise
distinct codes: `unpack (pack mti fields) = ⟨mti, fields⟩`.  (The
original claim also covered the empty field map; `c1_counterexample`
shows that case fails.) -/
theorem c1_round_trip (mti : List Char) (fields : List (List Char × List Char))
    (hmne : mti ≠ []) (hm1 : '|' ∉ mti) (hm2 : ':' ∉ mti)
    (hf : fields ≠ [])
    (hclean : ∀ p ∈ fields, ('|' ∉ p.1 ∧ ',' ∉ p.1 ∧ ':' ∉ p.1) ∧
      ('|' ∉ p.2 ∧ ',' ∉ p.2 ∧ ':' ∉ p.2))
    (hnd : (fields.map Prod.fst).Nodup) :
    Iso8583Message.unpack (Iso8583Message.pack mti fields) = ⟨mti, fields⟩ := by
  set pieces := fields.map (fun p => p.1 ++ ':' :: p.2) with hp_def
  have hpieces_ne : pieces ≠ [] := by simpa [hp_def] using hf
  have hpieces_mem : ∀ c : Char, c ≠ ':' → (∀ p ∈ fields, c ∉ p.1 ∧ c ∉ p.2) →
      ∀ p ∈ pieces, c ∉ p := by
    intro c hc hfld p hp
    obtain ⟨q, hq, rfl⟩ := List.mem_map.mp hp
    have hq' := hfld q hq
    simp only [List.mem_append, List.mem_cons, not_or]
    exact ⟨hq'.1, hc, hq'.2⟩
  have hbar_join : '|' ∉ pyJoin ',' pieces :=
    not_mem_pyJoin (by decide)
      (hpieces_mem '|' (by decide) (fun p hp => ⟨(hclean p hp).1.1, (hclean p hp).2.1⟩))
  have hbar_head : '|' ∉ ['M', 'T', 'I', ':'] ++ mti := by
    intro hmem
    rcases List.mem_append.mp hmem with h | h
    · exact absurd h (by decide)
    · exact hm1 h
  have hsplit_bar : pySplit '|' (Iso8583Message.pack mti fields) =
      [['M', 'T', 'I', ':'] ++ mti, pyJoin ',' pieces] := by
    have hpk : Iso8583Message.pack mti fields =
        (['M', 'T', 'I', ':'] ++ mti) ++ '|' :: pyJoin ',' pieces := by
      rw [Iso8583Message.pack, ← hp_def]
    rw [hpk, pySplit_append _ hbar_head, pySplit_of_not_mem hbar_join]
  have hhead : pySplit ':' (['M', 'T', 'I', ':'] ++ mti) = [['M', 'T', 'I'], mti] := by
    have he : (['M', 'T', 'I', ':'] ++ mti) = ['M', 'T', 'I'] ++ ':' :: mti := by simp
    rw [he, pySplit_append _ (by decide), pySplit_of_not_mem hm2]
  have hdata : pySplit ',' (pyJoin ',' pieces) = pieces :=
    pySplit_pyJoin hpieces_ne
      (hpieces_mem ',' (by decide)
        (fun p hp => ⟨(hclean p hp).1.2.1, (hclean p hp).2.2.1⟩))
  have hloop : Iso8583Message.unpackPairs [] pieces = ([] ++ fields, true) :=
    unpackPairs_clean fields []
      (fun p hp => ⟨(hclean p hp).1.2.2, (hclean p hp).2.2.2⟩) hnd (by simp)
  have hparts : Iso8583Message.unpackPartsE
      (pySplit '|' (Iso8583Message.pack mti fields)) = .ok ⟨mti, fields⟩ := by
    rw [hsplit_bar, Iso8583Message.unpackPartsE]
    simp only [List.headD_cons, hhead, List.get?_cons_succ, List.get?_cons_zero,
      hdata, hloop, List.nil_append]
  rw [Iso8583Message.unpack, hparts]

/-- C1 witness: the round-trip theorem applied to a concrete two-field
message. -/
theorem c1_round_trip_witness :
    Iso8583Message.unpack (Iso8583Message.pack "0200".data
      [("39".data, "00".data), ("02".data, "4111111111111111".data)]) =
      ⟨"0200".data, [("39".data, "00".data), ("02".data, "4111111111111111".data)]⟩ :=
  c1_round_trip _ _ (by decide) (by decide) (by decide) (by decide) (by decide) (by decide)

/-- C1 counterexample: the empty field map does not round-trip —
`pack "0200" {}` gives `"MTI:0200|"`, whose empty data segment makes the
pair loop raise, so decode returns the `ERROR` message, not the original. -/
theorem c1_counterexample :
    Iso8583Message.unpack (Iso8583Message.pack "0200".data []) ≠
      (⟨"0200".data, []⟩ : Iso8583Message) ∧
    Iso8583Message.unpack (Iso8583Message.pack "0200".data []) =
      (⟨"ERROR".data, []⟩ : Iso8583Message) := by
  refine ⟨by decide, by decide⟩

/-- C2: the record appended to the ledger carries the card number
verbatim — `firestoreRecord` copies `data.cardNumber` with no masking;
at the concrete request it stores the full PAN `4111111111111111`. -/
theorem c2_card_number_persisted_unmasked :
    (∀ (data : RequestData) (result : PaymentResult),
      (firestoreRecord data result).cardNumber = data.cardNumber) ∧
    (firestoreRecord demoData demoResult).cardNumber = some "4111111111111111" :=
  ⟨fun _ _ => rfl, rfl⟩

/-- C3 (amended): every structurally invalid input decodes to a message
whose `messageType` is `"ERROR"`; the field map, however, is NOT always
empty — pairs parsed before the malformed one are kept
(`c3_counterexample`). -/
theorem c3_error_mti_on_failure (s : List Char)
    (h : unpackRaises s = true) :
    (Iso8583Message.unpack s).mti = ['E', 'R', 'R', 'O', 'R'] := by
  unfold Iso8583Message.unpack
  unfold unpackRaises at h
  cases he : Iso8583Message.unpackPartsE (pySplit '|' s) with
  | ok m => rw [he] at h; simp at h
  | error acc => simp

/-- C3 witness: the amended theorem applied to a structurally invalid
concrete input (empty data segment). -/
theorem c3_witness :
    unpackRaises "MTI:0200|".data = true ∧
      (Iso8583Message.unpack "MTI:0200|".data).mti = ['E', 'R', 'R', 'O', 'R'] :=
  ⟨by decide, c3_error_mti_on_failure _ (by decide)⟩

/-- C3 counterexample: `"MTI:0200|a:1,b"` is structurally invalid (the
element `"b"` has no colon), yet decode returns field map `{a: 1}`, not
the empty map the claim requires. -/
theorem c3_counterexample :
    unpackRaises "MTI:0200|a:1,b".data = true ∧
    Iso8583Message.unpack "MTI:0200|a:1,b".data =
      ⟨"ERROR".data, [("a".data, "1".data)]⟩ ∧
    (Iso8583Message.unpack "MTI:0200|a:1,b".data).data_elements ≠ [] := by
  refine ⟨by decide, by decide, by decide⟩

/-- C4: with the decision step approving (`isApproved = true`) and a
settlement result whose status is not `"success"`, the outcome keeps
status `"approved"` with response code `"05"` and a null settlement
reference — never the declined code `"51"`. -/
theorem c4_settlement_failure_isolation (payout : PayoutResult) (dbAvail : Bool)
    (sink : LedgerRecord → Bool) (data : RequestData)
    (hval : truthyAll data = true) (hfail : payout.status ≠ "success") :
    (process_payment_logic true payout dbAvail sink data).1.status = "approved" ∧
    (process_payment_logic true payout dbAvail sink data).1.response_code = "05" ∧
    (process_payment_logic true payout dbAvail sink data).1.blockchain_hash = none := by
  have hb : (payout.status == "success") = false := by
    simpa using hfail
  simp [process_payment_logic, hval, hb]

/-- C4 witness: the isolation theorem at a concrete valid request and a
failing settlement result. -/
theorem c4_witness :
    truthyAll demoData = true ∧ ("failure" : String) ≠ "success" ∧
    (process_payment_logic true ⟨"failure", none⟩ true (fun _ => true) demoData).1.status
      = "approved" ∧
    (process_payment_logic true ⟨"failure", none⟩ true (fun _ => true) demoData).1.response_code
      = "05" ∧
    (process_payment_logic true ⟨"failure", none⟩ true (fun _ => true) demoData).1.blockchain_hash
      = none :=
  ⟨by decide, by decide,
    c4_settlement_failure_isolation ⟨"failure", none⟩ true (fun _ => true) demoData
      (by decide) (by decide)⟩

/-- C5: the decision is the ambient `random.choice([True, False])` draw,
not a function of request and policy — two runs on the very same request
with the two possible draws produce different outcomes (approved vs
declined). -/
theorem c5_same_request_two_runs_differ :
    (process_payment_logic true demoPayout true (fun _ => true) demoData).1.status
      = "approved" ∧
    (process_payment_logic false demoPayout true (fun _ => true) demoData).1.status
      = "declined" ∧
    (process_payment_logic true demoPayout true (fun _ => true) demoData).1 ≠
      (process_payment_logic false demoPayout true (fun _ => true) demoData).1 := by
  refine ⟨rfl, rfl, by decide⟩

/-- C6 (amended): a request failing the presence check is declined with
code `"99"` and the fixed message `"Missing transaction data."`, with no
ledger call — the reply does not name the offending field
(`c6_counterexample`). -/
theorem c6_generic_validation_reply (isApproved : Bool) (payout : PayoutResult)
    (dbAvail : Bool) (sink : LedgerRecord → Bool) (data : RequestData)
    (hval : truthyAll data = false) :
    process_payment_logic isApproved payout dbAvail sink data =
      ({ status := "declined", response_code := "99",
         message := "Missing transaction data.", blockchain_hash := none }, none) := by
  simp [process_payment_logic, hval]

/-- C6 witness: the amended theorem at the request missing both `amount`
and `currency`. -/
theorem c6_witness :
    truthyAll noAmountNoCurrencyData = false ∧
    process_payment_logic true demoPayout true (fun _ => true) noAmountNoCurrencyData =
      ({ status := "declined", response_code := "99",
         message := "Missing transaction data.", blockchain_hash := none }, none) :=
  ⟨by decide,
    c6_generic_validation_reply true demoPayout true (fun _ => true)
      noAmountNoCurrencyData (by decide)⟩

/-- C6 counterexample: the reply for the request missing both `amount`
and `currency` is the fixed generic message, and it coincides exactly
with the replies for the requests missing only `currency` or only
`amount` — so the reply cannot be naming the first offending field. -/
theorem c6_counterexample :
    (process_payment_logic true demoPayout true (fun _ => true) noAmountNoCurrencyData).1.message
      = "Missing transaction data." ∧
    (process_payment_logic true demoPayout true (fun _ => true) noAmountNoCurrencyData).1 =
      (process_payment_logic true demoPayout true (fun _ => true) noCurrencyData).1 ∧
    (process_payment_logic true demoPayout true (fun _ => true) noAmountNoCurrencyData).1 =
      (process_payment_logic true demoPayout true (fun _ => true) noAmountData).1 := by
  refine ⟨rfl, rfl, rfl⟩

/-- C7: decode is total (the embedding is a total function mirroring the
catch-all `except`), and on every input it either succeeded structurally
or returns `messageType = "ERROR"` — garbage and already-`ERROR`-tagged
bytes included. -/
theorem c7_decode_total (s : List Char) :
    unpackRaises s = false ∨ (Iso8583Message.unpack s).mti = ['E', 'R', 'R', 'O', 'R'] := by
  unfold unpackRaises Iso8583Message.unpack
  cases he : Iso8583Message.unpackPartsE (pySplit '|' s) with
  | ok m => exact Or.inl rfl
  | error acc => exact Or.inr rfl

/-- C8: the reply returned to the channel is identical for any two ledger
behaviours (database available or not, append succeeding or failing) —
the ledger effect only shows in the second component. -/
theorem c8_ledger_frame (isApproved : Bool) (payout : PayoutResult)
    (data : RequestData) (db1 db2 : Bool) (sink1 sink2 : LedgerRecord → Bool) :
    (process_payment_logic isApproved payout db1 sink1 data).1 =
      (process_payment_logic isApproved payout db2 sink2 data).1 := by
  unfold process_payment_logic
  cases h : truthyAll data <;> simp [h]

/-- C9: the built-in settlement stub always returns `"success"` with a
non-null hash, so the pipeline composed with it never yields response
code `"05"`, and every approved valid request ends with code `"00"` and a
non-null settlement hash. -/
theorem c9_payout_stub_always_succeeds (randHex : String) (amount : Option String)
    (payout_type wallet : String) (isApproved dbAvail : Bool)
    (sink : LedgerRecord → Bool) (data : RequestData) :
    (initiate_payout randHex amount payout_type wallet).status = "success" ∧
    (initiate_payout randHex amount payout_type wallet).hash = some ("0x" ++ randHex) ∧
    (process_payment_logic isApproved (initiate_payout randHex amount payout_type wallet)
        dbAvail sink data).1.response_code ≠ "05" ∧
    (isApproved = true → truthyAll data = true →
      (process_payment_logic isApproved (initiate_payout randHex amount payout_type wallet)
          dbAvail sink data).1.response_code = "00" ∧
      (process_payment_logic isApproved (initiate_payout randHex amount payout_type wallet)
          dbAvail sink data).1.blockchain_hash = some ("0x" ++ randHex)) := by
  refine ⟨rfl, rfl, ?_, ?_⟩
  · cases h : truthyAll data <;> cases isApproved <;>
      simp [process_payment_logic, initiate_payout, h]
  · rintro rfl hval
    simp [process_payment_logic, initiate_payout, hval]

/-- C9 witness: the stub theorem at a concrete approved valid request. -/
theorem c9_witness :
    (process_payment_logic true (initiate_payout "ab" (some "10.00") "USDT_TRC20" "Txx")
        true (fun _ => true) demoData).1.response_code = "00" ∧
    (process_payment_logic true (initiate_payout "ab" (some "10.00") "USDT_TRC20" "Txx")
        true (fun _ => true) demoData).1.blockchain_hash = some ("0x" ++ "ab") :=
  (c9_payout_stub_always_succeeds "ab" (some "10.00") "USDT_TRC20" "Txx" true true
    (fun _ => true) demoData).2.2.2 rfl (by decide)

/-- C10 (amended): whenever the input splits into at least two segments
and the data segment's pairs are all well-formed, the `messageType` is
whatever stands between the first and second colon of the first segment —
the `"MTI"` tag itself (`t0`) is never inspected — and all segments past
the second are ignored (`rest` is arbitrary). -/
theorem c10_tag_not_verified (s seg0 seg1 : List Char) (rest : List (List Char))
    (t0 mtiVal : List Char) (ts : List (List Char))
    (acc : List (List Char × List Char))
    (hparts : pySplit '|' s = seg0 :: seg1 :: rest)
    (hseg0 : pySplit ':' seg0 = t0 :: mtiVal :: ts)
    (hpairs : Iso8583Message.unpackPairs [] (pySplit ',' seg1) = (acc, true)) :
    Iso8583Message.unpack s = ⟨mtiVal, acc⟩ := by
  unfold Iso8583Message.unpack Iso8583Message.unpackPartsE
  rw [hparts]
  simp only [List.headD_cons, hseg0, List.get?_cons_succ, List.get?_cons_zero, hpairs]

/-- C10 witness: `"XTI:0200|39:00|junk"` decodes to message type `"0200"`
with fields `{39: 00}`, the bogus tag `XTI` unnoticed and the third
segment dropped. -/
theorem c10_witness :
    Iso8583Message.unpack "XTI:0200|39:00|junk".data =
      ⟨"0200".data, [("39".data, "00".data)]⟩ :=
  c10_tag_not_verified _ "XTI:0200".data "39:00".data ["junk".data]
    "XTI".data "0200".data [] [("39".data, "00".data)]
    (by decide) (by decide) (by decide)

/-- C10 counterexample: for `"XTI:0200|x"` the first segment does contain
a colon with `"0200"` after it, yet the decoded `messageType` is
`"ERROR"`, not `"0200"` — the claim's universal statement over all such
inputs fails when the data segment is malformed. -/
theorem c10_counterexample :
    (pySplit ':' ((pySplit '|' "XTI:0200|x".data).headD [])).get? 1 =
      some "0200".data ∧
    (Iso8583Message.unpack "XTI:0200|x".data).mti ≠ "0200".data ∧
    (Iso8583Message.unpack "XTI:0200|x".data).mti = "ERROR".data := by
  refine ⟨by decide, by decide, by decide⟩
